import Mathlib

/-!
Shallow embedding of the ABCRaster binary-raster validation core
(`src/raster_binary_validation/validation.py` and `worker.py`).

Rasters are modelled as functions `Fin n → ℤ` over a flat cell index
(the numpy operations in the source are all pointwise or whole-array
reductions, so the 2-D shape is irrelevant).  The float divisions of the
source, which yield NaN exactly when their denominator is zero, are
modelled by `Option`: `none` stands for the NaN / undefined marker.  The
transcendental penalization term `exp(FP / ((TP+FN)/ln 0.5))` and the
success rate built from it are modelled over `ℝ`.
-/

/-- The per-metric report computed inline in `validate`
    (floats in the source; `none` models a NaN result). -/
structure Metrics where
  UA : Option ℚ
  PA : Option ℚ
  Ce : Option ℚ
  Oe : Option ℚ
  CSI : Option ℚ
  F1 : Option ℚ
  K : Option ℚ
  A : Option ℚ
  deriving DecidableEq

/-- Everything `validate` produces or leaves behind: the difference map
    `res`, the validity mask `valid`, the (possibly mutated) classification
    array `dataOut`, the four confusion counts, and the rational metrics. -/
structure ValidateOut (n : ℕ) where
  res : Fin n → ℤ
  valid : Fin n → Bool
  dataOut : Fin n → ℤ
  TP : ℕ
  TN : ℕ
  FN : ℕ
  FP : ℕ
  metrics : Metrics

namespace Validation

/-- Division returning `none` when the denominator is zero, the model of a
    float division that would produce NaN (numerator is never nonzero with a
    zero denominator in the metric formulas below). -/
def divOpt (a b : ℚ) : Option ℚ := if b = 0 then none else some (a / b)

/-- The metric block of `validate` (validation.py lines 186-196), on the
    four confusion counts.  `A` is assigned the same value as `Po` in the
    source (`Po = A = ...`). -/
def computeMetrics (TP TN FN FP : ℕ) : Metrics :=
  let tp : ℚ := TP
  let tn : ℚ := TN
  let fn : ℚ := FN
  let fp : ℚ := FP
  let Po := divOpt (tp + tn) (tp + tn + fp + fn)
  let Pe := divOpt ((tp + fn) * (tp + fp) + (fp + tn) * (fn + tn))
      ((tp + tn + fp + fn) ^ 2)
  let K : Option ℚ :=
    match Po, Pe with
    | some po, some pe => if pe = 1 then none else some ((po - pe) / (1 - pe))
    | _, _ => none
  let UA := divOpt tp (tp + fp)
  let PA := divOpt tp (tp + fn)
  let CSI := divOpt tp (tp + fp + fn)
  let F1 := divOpt (2 * tp) (2 * tp + fn + fp)
  let Ce := divOpt fp (fp + tp)
  let Oe := divOpt fn (fn + tp)
  ⟨UA, PA, Ce, Oe, CSI, F1, K, Po⟩

/-- Real-valued division with the zero-denominator (NaN) case as `none`. -/
noncomputable def divOptR (a b : ℝ) : Option ℝ := if b = 0 then none else some (a / b)

/-- `P = math.exp(FP / ((TP + FN) / math.log(0.5)))` (validation.py line 195). -/
noncomputable def penalization (tp fn fp : ℕ) : Option ℝ :=
  (divOptR (fp : ℝ) (((tp : ℝ) + (fn : ℝ)) / Real.log 0.5)).map Real.exp

/-- `SR = PA - (1 - P)` (validation.py line 196), with the same float `PA`
    `TP / (TP + FN)` the source reuses. -/
noncomputable def successRate (tp fn fp : ℕ) : Option ℝ :=
  match divOptR (tp : ℝ) ((tp : ℝ) + (fn : ℝ)), penalization tp fn fp with
  | some pa, some p => some (pa - (1 - p))
  | _, _ => none

/-- The difference map after the four sequential overwrites of the source:
    `res = 1 + 2*data - val_data`; `res[data == data_nodata] = 255`;
    `res[val_data == val_nodata] = 255`; and, when a mask is given,
    `res[mask == 1] = 255` (validation.py lines 170-175). -/
def diffMap {n : ℕ} (data val_data : Fin n → ℤ) (mask : Option (Fin n → ℤ))
    (data_nodata val_nodata : ℤ) : Fin n → ℤ :=
  fun i =>
    let r := 1 + 2 * data i - val_data i
    let r := if data i = data_nodata then 255 else r
    let r := if val_data i = val_nodata then 255 else r
    match mask with
    | none => r
    | some m => if m i = 1 then 255 else r

/-- The in-place mutation `data[mask == 1] = 255` of the caller's
    classification array (validation.py line 176); identity when no mask. -/
def dataAfterMask {n : ℕ} (data : Fin n → ℤ) (mask : Option (Fin n → ℤ)) :
    Fin n → ℤ :=
  fun i =>
    match mask with
    | none => data i
    | some m => if m i = 1 then 255 else data i

/-- `valid = np.logical_and(val_data != 255, data != 255)` computed on the
    post-mutation `data` with the hardcoded constant 255
    (validation.py line 177). -/
def validMask {n : ℕ} (data val_data : Fin n → ℤ) (mask : Option (Fin n → ℤ)) :
    Fin n → Bool :=
  fun i => decide (val_data i ≠ 255) && decide (dataAfterMask data mask i ≠ 255)

/-- `np.sum(res == c)` over the whole array. -/
def countCode {n : ℕ} (res : Fin n → ℤ) (c : ℤ) : ℕ :=
  (Finset.univ.filter fun i => res i = c).card

/-- The `validate` function of validation.py (lines 127-209). -/
def validate {n : ℕ} (data val_data : Fin n → ℤ) (mask : Option (Fin n → ℤ))
    (data_nodata val_nodata : ℤ) : ValidateOut n :=
  let res := diffMap data val_data mask data_nodata val_nodata
  let dataOut := dataAfterMask data mask
  let valid := validMask data val_data mask
  let TP := countCode res 2
  let TN := countCode res 1
  let FN := countCode res 0
  let FP := countCode res 3
  ⟨res, valid, dataOut, TP, TN, FN, FP, computeMetrics TP TN FN FP⟩

end Validation

namespace Worker

/-- worker.py's copy of the zero-denominator division model. -/
def divOpt (a b : ℚ) : Option ℚ := if b = 0 then none else some (a / b)

/-- The metric block of worker.py's `validate` (lines 133-143), textually
    identical to the one in validation.py. -/
def computeMetrics (TP TN FN FP : ℕ) : Metrics :=
  let tp : ℚ := TP
  let tn : ℚ := TN
  let fn : ℚ := FN
  let fp : ℚ := FP
  let Po := divOpt (tp + tn) (tp + tn + fp + fn)
  let Pe := divOpt ((tp + fn) * (tp + fp) + (fp + tn) * (fn + tn))
      ((tp + tn + fp + fn) ^ 2)
  let K : Option ℚ :=
    match Po, Pe with
    | some po, some pe => if pe = 1 then none else some ((po - pe) / (1 - pe))
    | _, _ => none
  let UA := divOpt tp (tp + fp)
  let PA := divOpt tp (tp + fn)
  let CSI := divOpt tp (tp + fp + fn)
  let F1 := divOpt (2 * tp) (2 * tp + fn + fp)
  let Ce := divOpt fp (fp + tp)
  let Oe := divOpt fn (fn + tp)
  ⟨UA, PA, Ce, Oe, CSI, F1, K, Po⟩

/-- worker.py's copy of the real division model. -/
noncomputable def divOptR (a b : ℝ) : Option ℝ := if b = 0 then none else some (a / b)

/-- worker.py line 142: `P = math.exp(FP / ((TP + FN) / math.log(0.5)))`. -/
noncomputable def penalization (tp fn fp : ℕ) : Option ℝ :=
  (divOptR (fp : ℝ) (((tp : ℝ) + (fn : ℝ)) / Real.log 0.5)).map Real.exp

/-- worker.py line 143: `SR = PA - (1 - P)`. -/
noncomputable def successRate (tp fn fp : ℕ) : Option ℝ :=
  match divOptR (tp : ℝ) ((tp : ℝ) + (fn : ℝ)), penalization tp fn fp with
  | some pa, some p => some (pa - (1 - p))
  | _, _ => none

/-- worker.py lines 117-122: the same four sequential overwrites. -/
def diffMap {n : ℕ} (data val_data : Fin n → ℤ) (mask : Option (Fin n → ℤ))
    (data_nodata val_nodata : ℤ) : Fin n → ℤ :=
  fun i =>
    let r := 1 + 2 * data i - val_data i
    let r := if data i = data_nodata then 255 else r
    let r := if val_data i = val_nodata then 255 else r
    match mask with
    | none => r
    | some m => if m i = 1 then 255 else r

/-- worker.py line 123: `data[mask == 1] = 255`. -/
def dataAfterMask {n : ℕ} (data : Fin n → ℤ) (mask : Option (Fin n → ℤ)) :
    Fin n → ℤ :=
  fun i =>
    match mask with
    | none => data i
    | some m => if m i = 1 then 255 else data i

/-- worker.py line 124: the hardcoded-255 validity mask. -/
def validMask {n : ℕ} (data val_data : Fin n → ℤ) (mask : Option (Fin n → ℤ)) :
    Fin n → Bool :=
  fun i => decide (val_data i ≠ 255) && decide (dataAfterMask data mask i ≠ 255)

/-- worker.py lines 126-129: `np.sum(res == c)`. -/
def countCode {n : ℕ} (res : Fin n → ℤ) (c : ℤ) : ℕ :=
  (Finset.univ.filter fun i => res i = c).card

/-- The `validate` function of worker.py (lines 74-156). -/
def validate {n : ℕ} (data val_data : Fin n → ℤ) (mask : Option (Fin n → ℤ))
    (data_nodata val_nodata : ℤ) : ValidateOut n :=
  let res := diffMap data val_data mask data_nodata val_nodata
  let dataOut := dataAfterMask data mask
  let valid := validMask data val_data mask
  let TP := countCode res 2
  let TN := countCode res 1
  let FN := countCode res 0
  let FP := countCode res 3
  ⟨res, valid, dataOut, TP, TN, FN, FP, computeMetrics TP TN FN FP⟩

end Worker

namespace Validation

theorem validate_res {n : ℕ} (data val_data : Fin n → ℤ) (mask : Option (Fin n → ℤ))
    (dn vn : ℤ) :
    (validate data val_data mask dn vn).res = diffMap data val_data mask dn vn := rfl

theorem validate_dataOut {n : ℕ} (data val_data : Fin n → ℤ) (mask : Option (Fin n → ℤ))
    (dn vn : ℤ) :
    (validate data val_data mask dn vn).dataOut = dataAfterMask data mask := rfl

theorem validate_valid {n : ℕ} (data val_data : Fin n → ℤ) (mask : Option (Fin n → ℤ))
    (dn vn : ℤ) :
    (validate data val_data mask dn vn).valid = validMask data val_data mask := rfl

theorem validate_mk {n : ℕ} (data val_data : Fin n → ℤ) (mask : Option (Fin n → ℤ))
    (dn vn : ℤ) :
    validate data val_data mask dn vn =
      ⟨diffMap data val_data mask dn vn, validMask data val_data mask, dataAfterMask data mask,
        countCode (diffMap data val_data mask dn vn) 2,
        countCode (diffMap data val_data mask dn vn) 1,
        countCode (diffMap data val_data mask dn vn) 0,
        countCode (diffMap data val_data mask dn vn) 3,
        computeMetrics (countCode (diffMap data val_data mask dn vn) 2)
          (countCode (diffMap data val_data mask dn vn) 1)
          (countCode (diffMap data val_data mask dn vn) 0)
          (countCode (diffMap data val_data mask dn vn) 3)⟩ := rfl

theorem diffMap_none_apply {n : ℕ} (data val_data : Fin n → ℤ) (dn vn : ℤ) (i : Fin n) :
    diffMap data val_data none dn vn i =
      if val_data i = vn then 255
      else if data i = dn then 255
      else 1 + 2 * data i - val_data i := rfl

theorem diffMap_some_apply {n : ℕ} (data val_data m : Fin n → ℤ) (dn vn : ℤ) (i : Fin n) :
    diffMap data val_data (some m) dn vn i =
      if m i = 1 then 255
      else if val_data i = vn then 255
      else if data i = dn then 255
      else 1 + 2 * data i - val_data i := rfl

theorem validMask_eq_true_iff {n : ℕ} (data val_data : Fin n → ℤ)
    (mask : Option (Fin n → ℤ)) (i : Fin n) :
    validMask data val_data mask i = true ↔
      (val_data i ≠ 255 ∧ dataAfterMask data mask i ≠ 255) := by
  simp [validMask]

theorem dataAfterMask_idem {n : ℕ} (data : Fin n → ℤ) (mask : Option (Fin n → ℤ)) :
    dataAfterMask (dataAfterMask data mask) mask = dataAfterMask data mask := by
  funext i
  cases mask with
  | none => rfl
  | some m =>
    simp only [dataAfterMask]
    by_cases h : m i = 1 <;> simp [h]

theorem diffMap_dataAfterMask {n : ℕ} (data val_data : Fin n → ℤ)
    (mask : Option (Fin n → ℤ)) (dn vn : ℤ) :
    diffMap (dataAfterMask data mask) val_data mask dn vn =
      diffMap data val_data mask dn vn := by
  funext i
  cases mask with
  | none => rfl
  | some m =>
    simp only [diffMap, dataAfterMask]
    by_cases h : m i = 1 <;> simp [h]

theorem validMask_dataAfterMask {n : ℕ} (data val_data : Fin n → ℤ)
    (mask : Option (Fin n → ℤ)) :
    validMask (dataAfterMask data mask) val_data mask = validMask data val_data mask := by
  funext i
  simp only [validMask, dataAfterMask_idem]

theorem validate_TP {n : ℕ} (data val_data : Fin n → ℤ) (mask : Option (Fin n → ℤ))
    (dn vn : ℤ) :
    (validate data val_data mask dn vn).TP =
      countCode ((validate data val_data mask dn vn).res) 2 := rfl

theorem validate_TN {n : ℕ} (data val_data : Fin n → ℤ) (mask : Option (Fin n → ℤ))
    (dn vn : ℤ) :
    (validate data val_data mask dn vn).TN =
      countCode ((validate data val_data mask dn vn).res) 1 := rfl

theorem validate_FN {n : ℕ} (data val_data : Fin n → ℤ) (mask : Option (Fin n → ℤ))
    (dn vn : ℤ) :
    (validate data val_data mask dn vn).FN =
      countCode ((validate data val_data mask dn vn).res) 0 := rfl

theorem validate_FP {n : ℕ} (data val_data : Fin n → ℤ) (mask : Option (Fin n → ℤ))
    (dn vn : ℤ) :
    (validate data val_data mask dn vn).FP =
      countCode ((validate data val_data mask dn vn).res) 3 := rfl

theorem validate_metrics {n : ℕ} (data val_data : Fin n → ℤ) (mask : Option (Fin n → ℤ))
    (dn vn : ℤ) :
    (validate data val_data mask dn vn).metrics =
      computeMetrics ((validate data val_data mask dn vn).TP)
        ((validate data val_data mask dn vn).TN)
        ((validate data val_data mask dn vn).FN)
        ((validate data val_data mask dn vn).FP) := rfl

theorem countCode_eq_zero {n : ℕ} (res : Fin n → ℤ) (c : ℤ) (h : ∀ i, res i ≠ c) :
    countCode res c = 0 := by
  rw [countCode, Finset.card_eq_zero, Finset.filter_eq_empty_iff]
  exact fun i _ => h i

theorem countCode_ne_zero {n : ℕ} (res : Fin n → ℤ) (c : ℤ) (j : Fin n) (h : res j = c) :
    countCode res c ≠ 0 := by
  rw [countCode]
  intro hc
  rw [Finset.card_eq_zero, Finset.filter_eq_empty_iff] at hc
  exact hc (Finset.mem_univ j) h

theorem computeMetrics_UA (tp tn fn fp : ℕ) :
    (computeMetrics tp tn fn fp).UA = divOpt (tp : ℚ) ((tp : ℚ) + fp) := rfl

theorem computeMetrics_PA (tp tn fn fp : ℕ) :
    (computeMetrics tp tn fn fp).PA = divOpt (tp : ℚ) ((tp : ℚ) + fn) := rfl

theorem computeMetrics_CSI (tp tn fn fp : ℕ) :
    (computeMetrics tp tn fn fp).CSI = divOpt (tp : ℚ) ((tp : ℚ) + fp + fn) := rfl

theorem computeMetrics_F1 (tp tn fn fp : ℕ) :
    (computeMetrics tp tn fn fp).F1 =
      divOpt (2 * (tp : ℚ)) (2 * (tp : ℚ) + fn + fp) := rfl

theorem computeMetrics_Ce (tp tn fn fp : ℕ) :
    (computeMetrics tp tn fn fp).Ce = divOpt (fp : ℚ) ((fp : ℚ) + tp) := rfl

theorem computeMetrics_Oe (tp tn fn fp : ℕ) :
    (computeMetrics tp tn fn fp).Oe = divOpt (fn : ℚ) ((fn : ℚ) + tp) := rfl

theorem computeMetrics_A (tp tn fn fp : ℕ) :
    (computeMetrics tp tn fn fp).A =
      divOpt ((tp : ℚ) + tn) ((tp : ℚ) + tn + fp + fn) := rfl

theorem computeMetrics_K (tp tn fn fp : ℕ) :
    (computeMetrics tp tn fn fp).K =
      match divOpt ((tp : ℚ) + tn) ((tp : ℚ) + tn + fp + fn),
        divOpt (((tp : ℚ) + fn) * ((tp : ℚ) + fp) + ((fp : ℚ) + tn) * ((fn : ℚ) + tn))
          (((tp : ℚ) + tn + fp + fn) ^ 2) with
      | some po, some pe => if pe = 1 then none else some ((po - pe) / (1 - pe))
      | _, _ => none := rfl

theorem divOpt_eq_none_iff (a b : ℚ) : divOpt a b = none ↔ b = 0 := by
  by_cases h : b = 0 <;> simp [divOpt, h]

theorem log_half_ne_zero : Real.log 0.5 ≠ 0 := by
  intro hc
  rcases Real.log_eq_zero.mp hc with hc | hc | hc <;> norm_num at hc

theorem computeMetrics_UA_none_iff (tp tn fn fp : ℕ) :
    (computeMetrics tp tn fn fp).UA = none ↔ tp + fp = 0 := by
  rw [computeMetrics_UA, divOpt_eq_none_iff]
  exact_mod_cast Iff.rfl

theorem computeMetrics_PA_none_iff (tp tn fn fp : ℕ) :
    (computeMetrics tp tn fn fp).PA = none ↔ tp + fn = 0 := by
  rw [computeMetrics_PA, divOpt_eq_none_iff]
  exact_mod_cast Iff.rfl

theorem computeMetrics_CSI_none_iff (tp tn fn fp : ℕ) :
    (computeMetrics tp tn fn fp).CSI = none ↔ tp + fp + fn = 0 := by
  rw [computeMetrics_CSI, divOpt_eq_none_iff]
  exact_mod_cast Iff.rfl

theorem computeMetrics_F1_none_iff (tp tn fn fp : ℕ) :
    (computeMetrics tp tn fn fp).F1 = none ↔ 2 * tp + fn + fp = 0 := by
  rw [computeMetrics_F1, divOpt_eq_none_iff]
  exact_mod_cast Iff.rfl

theorem computeMetrics_Ce_none_iff (tp tn fn fp : ℕ) :
    (computeMetrics tp tn fn fp).Ce = none ↔ fp + tp = 0 := by
  rw [computeMetrics_Ce, divOpt_eq_none_iff]
  exact_mod_cast Iff.rfl

theorem computeMetrics_Oe_none_iff (tp tn fn fp : ℕ) :
    (computeMetrics tp tn fn fp).Oe = none ↔ fn + tp = 0 := by
  rw [computeMetrics_Oe, divOpt_eq_none_iff]
  exact_mod_cast Iff.rfl

theorem computeMetrics_A_none_iff (tp tn fn fp : ℕ) :
    (computeMetrics tp tn fn fp).A = none ↔ tp + tn + fp + fn = 0 := by
  rw [computeMetrics_A, divOpt_eq_none_iff]
  exact_mod_cast Iff.rfl

theorem computeMetrics_K_none_iff (tp tn fn fp : ℕ) :
    (computeMetrics tp tn fn fp).K = none ↔
      (tp + tn + fp + fn = 0 ∨
        ((tp : ℚ) + fn) * ((tp : ℚ) + fp) + ((fp : ℚ) + tn) * ((fn : ℚ) + tn) =
          ((tp : ℚ) + tn + fp + fn) ^ 2) := by
  rw [computeMetrics_K]
  by_cases hq : ((tp : ℚ) + tn + fp + fn) = 0
  · have hn : tp + tn + fp + fn = 0 := by exact_mod_cast hq
    simp [divOpt, hq, hn]
  · have hn : tp + tn + fp + fn ≠ 0 := fun hc => hq (by exact_mod_cast hc)
    have hsq : (((tp : ℚ) + tn + fp + fn) ^ 2) ≠ 0 := pow_ne_zero 2 hq
    simp only [divOpt, if_neg hq, if_neg hsq]
    by_cases hpe : (((tp : ℚ) + fn) * ((tp : ℚ) + fp) + ((fp : ℚ) + tn) * ((fn : ℚ) + tn)) /
        ((tp : ℚ) + tn + fp + fn) ^ 2 = 1
    · simp only [if_pos hpe]
      rw [div_eq_one_iff_eq hsq] at hpe
      simp [hpe, hn]
    · simp only [if_neg hpe]
      rw [div_eq_one_iff_eq hsq] at hpe
      simp [hpe, hn]

theorem divOptR_eq_none_iff (a b : ℝ) : divOptR a b = none ↔ b = 0 := by
  by_cases h : b = 0 <;> simp [divOptR, h]

theorem successRate_eq_none_iff (tp fn fp : ℕ) :
    successRate tp fn fp = none ↔ tp + fn = 0 := by
  by_cases h : ((tp : ℝ) + (fn : ℝ)) = 0
  · have h0 : tp + fn = 0 := by exact_mod_cast h
    have hden : ((tp : ℝ) + (fn : ℝ)) / Real.log 0.5 = 0 := by rw [h, zero_div]
    simp [successRate, penalization, divOptR, h, hden, h0]
  · have h0 : tp + fn ≠ 0 := fun hc => h (by exact_mod_cast hc)
    have hden : ((tp : ℝ) + (fn : ℝ)) / Real.log 0.5 ≠ 0 :=
      div_ne_zero h log_half_ne_zero
    simp [successRate, penalization, divOptR, h, hden, h0]

theorem computeMetrics_perfect (tp tn : ℕ) (htp : tp ≠ 0) :
    (computeMetrics tp tn 0 0).UA = some 1 ∧
    (computeMetrics tp tn 0 0).PA = some 1 ∧
    (computeMetrics tp tn 0 0).CSI = some 1 ∧
    (computeMetrics tp tn 0 0).F1 = some 1 ∧
    (computeMetrics tp tn 0 0).A = some 1 ∧
    (tn ≠ 0 → (computeMetrics tp tn 0 0).K = some 1) ∧
    (tn = 0 → (computeMetrics tp tn 0 0).K = none) := by
  have qtp : (tp : ℚ) ≠ 0 := Nat.cast_ne_zero.mpr htp
  have q2tp : 2 * (tp : ℚ) ≠ 0 := mul_ne_zero two_ne_zero qtp
  have hs : ((tp : ℚ) + tn) ≠ 0 := by
    exact_mod_cast (show tp + tn ≠ 0 by omega)
  have hsq : (((tp : ℚ) + tn) ^ 2) ≠ 0 := pow_ne_zero 2 hs
  refine ⟨?_, ?_, ?_, ?_, ?_, ?_, ?_⟩
  · rw [computeMetrics_UA]
    simp only [Nat.cast_zero, add_zero, divOpt, if_neg qtp, div_self qtp]
  · rw [computeMetrics_PA]
    simp only [Nat.cast_zero, add_zero, divOpt, if_neg qtp, div_self qtp]
  · rw [computeMetrics_CSI]
    simp only [Nat.cast_zero, add_zero, divOpt, if_neg qtp, div_self qtp]
  · rw [computeMetrics_F1]
    simp only [Nat.cast_zero, add_zero, divOpt, if_neg q2tp, div_self q2tp]
  · rw [computeMetrics_A]
    simp only [Nat.cast_zero, add_zero, divOpt, if_neg hs, div_self hs]
  · intro htn
    have qtp0 : (0 : ℚ) < (tp : ℚ) := by exact_mod_cast Nat.pos_of_ne_zero htp
    have qtn0 : (0 : ℚ) < (tn : ℚ) := by exact_mod_cast Nat.pos_of_ne_zero htn
    have hq1 : ((tp : ℚ) * (tp : ℚ) + (tn : ℚ) * (tn : ℚ)) / ((tp : ℚ) + (tn : ℚ)) ^ 2 ≠ 1 := by
      rw [Ne, div_eq_one_iff_eq hsq]
      intro hc
      nlinarith
    rw [computeMetrics_K]
    simp only [Nat.cast_zero, add_zero, zero_add, divOpt, if_neg hs, if_neg hsq,
      div_self hs, if_neg hq1]
    rw [div_self (sub_ne_zero.mpr fun hc => hq1 hc.symm)]
  · intro htn
    subst htn
    have hpe : ((tp : ℚ) * (tp : ℚ)) / ((tp : ℚ)) ^ 2 = 1 := by
      rw [div_eq_one_iff_eq (pow_ne_zero 2 qtp)]
      exact (pow_two _).symm
    rw [computeMetrics_K]
    simp only [Nat.cast_zero, add_zero, zero_add, mul_zero, zero_mul, divOpt,
      if_neg qtp, if_neg (pow_ne_zero 2 qtp), div_self qtp, if_pos hpe]

theorem diffMap_raw {n : ℕ} (data val_data : Fin n → ℤ) (mask : Option (Fin n → ℤ))
    (dn vn : ℤ) (i : Fin n) (hdd : data i ≠ dn) (hvv : val_data i ≠ vn)
    (hm : ∀ m, mask = some m → m i ≠ 1) :
    diffMap data val_data mask dn vn i = 1 + 2 * data i - val_data i := by
  cases mask with
  | none => rw [diffMap_none_apply, if_neg hvv, if_neg hdd]
  | some m => rw [diffMap_some_apply, if_neg (hm m rfl), if_neg hvv, if_neg hdd]

theorem diffMap_eq_255 {n : ℕ} (data val_data : Fin n → ℤ) (mask : Option (Fin n → ℤ))
    (dn vn : ℤ) (i : Fin n)
    (h : data i = dn ∨ val_data i = vn ∨ ∃ m, mask = some m ∧ m i = 1) :
    diffMap data val_data mask dn vn i = 255 := by
  cases mask with
  | none =>
    rw [diffMap_none_apply]
    rcases h with h | h | ⟨m, hm, _⟩
    · by_cases hval : val_data i = vn
      · rw [if_pos hval]
      · rw [if_neg hval, if_pos h]
    · rw [if_pos h]
    · cases hm
  | some m =>
    rw [diffMap_some_apply]
    by_cases hmi : m i = 1
    · rw [if_pos hmi]
    · rw [if_neg hmi]
      rcases h with h | h | ⟨m2, hm2, h2⟩
      · by_cases hval : val_data i = vn
        · rw [if_pos hval]
        · rw [if_neg hval, if_pos h]
      · rw [if_pos h]
      · cases hm2
        exact absurd h2 hmi

theorem validate_idem {n : ℕ} (data val_data : Fin n → ℤ) (mask : Option (Fin n → ℤ))
    (dn vn : ℤ) :
    validate (dataAfterMask data mask) val_data mask dn vn =
      validate data val_data mask dn vn := by
  rw [validate_mk, validate_mk, diffMap_dataAfterMask, dataAfterMask_idem,
    validMask_dataAfterMask]

end Validation

/-- Claim C6: for every input, the returned ValidMask is true at exactly the
cells where the reference value differs from the fixed sentinel 255 and the
post-mask-application classification value differs from 255; the comparison
uses the constant 255 regardless of the caller-supplied data_nodata and
val_nodata parameters (so the validity mask does not depend on them). -/
theorem validMask_hardcoded_255 {n : ℕ} (data val_data : Fin n → ℤ)
    (mask : Option (Fin n → ℤ)) (dn vn : ℤ) (i : Fin n) :
    ((Validation.validate data val_data mask dn vn).valid i = true ↔
      (val_data i ≠ 255 ∧ (Validation.validate data val_data mask dn vn).dataOut i ≠ 255)) ∧
    ∀ dn2 vn2 : ℤ,
      (Validation.validate data val_data mask dn vn).valid =
        (Validation.validate data val_data mask dn2 vn2).valid := by
  constructor
  · rw [Validation.validate_valid, Validation.validate_dataOut]
    exact Validation.validMask_eq_true_iff data val_data mask i
  · intro _ _
    rfl

/-- Claim C10: the `validate` functions of validation.py and worker.py are
extensionally equal: on every input they produce the same difference map,
valid mask, mutated data array, confusion counts and metric report, and the
same success rate on equal counts. -/
theorem worker_validate_eq_validation_validate :
    (∀ (n : ℕ) (data val_data : Fin n → ℤ) (mask : Option (Fin n → ℤ)) (dn vn : ℤ),
        Worker.validate data val_data mask dn vn =
          Validation.validate data val_data mask dn vn) ∧
    ∀ tp fn fp : ℕ, Worker.successRate tp fn fp = Validation.successRate tp fn fp :=
  ⟨fun _ _ _ _ _ _ => rfl, fun _ _ _ => rfl⟩

/-- Claim C3: at every cell whose data and reference values are binary, with
nodata sentinels outside {0,1} and the cell not excluded by the mask, the
difference code is 1 + 2*data - reference, and the four confusion codes
characterize data/reference exactly as stated. -/
theorem diff_code_confusion_cases {n : ℕ} (data val_data : Fin n → ℤ)
    (mask : Option (Fin n → ℤ)) (dn vn : ℤ) (i : Fin n)
    (hd : data i = 0 ∨ data i = 1) (hv : val_data i = 0 ∨ val_data i = 1)
    (hdn0 : dn ≠ 0) (hdn1 : dn ≠ 1) (hvn0 : vn ≠ 0) (hvn1 : vn ≠ 1)
    (hm : ∀ m, mask = some m → m i ≠ 1) :
    (Validation.validate data val_data mask dn vn).res i = 1 + 2 * data i - val_data i ∧
    ((Validation.validate data val_data mask dn vn).res i = 2 ↔
      data i = 1 ∧ val_data i = 1) ∧
    ((Validation.validate data val_data mask dn vn).res i = 1 ↔
      data i = 0 ∧ val_data i = 0) ∧
    ((Validation.validate data val_data mask dn vn).res i = 0 ↔
      data i = 0 ∧ val_data i = 1) ∧
    ((Validation.validate data val_data mask dn vn).res i = 3 ↔
      data i = 1 ∧ val_data i = 0) := by
  have hdd : data i ≠ dn := by rcases hd with h | h <;> omega
  have hvv : val_data i ≠ vn := by rcases hv with h | h <;> omega
  have hres : (Validation.validate data val_data mask dn vn).res i =
      1 + 2 * data i - val_data i := by
    rw [Validation.validate_res]
    cases mask with
    | none =>
      rw [Validation.diffMap_none_apply, if_neg hvv, if_neg hdd]
    | some m =>
      rw [Validation.diffMap_some_apply, if_neg (hm m rfl), if_neg hvv, if_neg hdd]
  refine ⟨hres, ?_, ?_, ?_, ?_⟩ <;> rw [hres] <;>
    rcases hd with h | h <;> rcases hv with h2 | h2 <;> rw [h, h2] <;> norm_num

/-- Witness for C3 at a concrete true-positive cell. -/
theorem diff_code_confusion_cases_witness :
    (Validation.validate (fun _ : Fin 1 => (1 : ℤ)) (fun _ => 1) none 255 255).res 0 =
      1 + 2 * 1 - 1 ∧
    ((Validation.validate (fun _ : Fin 1 => (1 : ℤ)) (fun _ => 1) none 255 255).res 0 = 2 ↔
      (1 : ℤ) = 1 ∧ (1 : ℤ) = 1) ∧
    ((Validation.validate (fun _ : Fin 1 => (1 : ℤ)) (fun _ => 1) none 255 255).res 0 = 1 ↔
      (1 : ℤ) = 0 ∧ (1 : ℤ) = 0) ∧
    ((Validation.validate (fun _ : Fin 1 => (1 : ℤ)) (fun _ => 1) none 255 255).res 0 = 0 ↔
      (1 : ℤ) = 0 ∧ (1 : ℤ) = 1) ∧
    ((Validation.validate (fun _ : Fin 1 => (1 : ℤ)) (fun _ => 1) none 255 255).res 0 = 3 ↔
      (1 : ℤ) = 1 ∧ (1 : ℤ) = 0) :=
  diff_code_confusion_cases (fun _ => 1) (fun _ => 1) none 255 255 0
    (by decide) (by decide) (by decide) (by decide) (by decide) (by decide)
    (fun m h => by simp at h)

/-- Claim C5 counterexample: with data_nodata = 7 and a mask selecting the
only cell, the classifier writes the constant 255 into the data array, not
the configured nodata value 7, so the claim that masked cells end up holding
data_nodata is false. -/
theorem mask_mutation_writes_255_not_nodata :
    ¬ (Validation.validate (fun _ : Fin 1 => (3 : ℤ)) (fun _ => 0)
        (some fun _ => 1) 7 7).dataOut 0 = 7 := by decide

/-- Claim C5 amended: when a mask is supplied, after the call every cell with
mask value 1 holds the constant 255 (regardless of data_nodata) and every
other cell holds its original value; with no mask the data array is
unchanged.  (The reference array is never written to by the source.) -/
theorem mask_mutation_sets_255 {n : ℕ} (data val_data : Fin n → ℤ)
    (mask : Option (Fin n → ℤ)) (dn vn : ℤ) :
    (∀ m, mask = some m → ∀ i,
      (Validation.validate data val_data mask dn vn).dataOut i =
        if m i = 1 then 255 else data i) ∧
    (mask = none → (Validation.validate data val_data mask dn vn).dataOut = data) := by
  constructor
  · intro m hm i
    subst hm
    rfl
  · intro hm
    subst hm
    rfl

/-- Witness for the amended C5 at a concrete masked cell. -/
theorem mask_mutation_sets_255_witness :
    (Validation.validate (fun _ : Fin 1 => (3 : ℤ)) (fun _ => 0)
        (some fun _ => 1) 7 7).dataOut 0 = if (1 : ℤ) = 1 then 255 else 3 :=
  (mask_mutation_sets_255 (fun _ => 3) (fun _ => 0) (some fun _ => 1) 7 7).1
    (fun _ => 1) rfl 0

/-- Claim C7: running the classifier a second time on the arrays as the first
run left them (the data array carrying the mask-induced mutation) yields an
identical difference map, valid mask and metrics report (counts, rational
metrics and success rate), for every mask and every nodata sentinels. -/
theorem validate_idempotent {n : ℕ} (data val_data : Fin n → ℤ)
    (mask : Option (Fin n → ℤ)) (dn vn : ℤ) :
    (Validation.validate ((Validation.validate data val_data mask dn vn).dataOut)
        val_data mask dn vn).res = (Validation.validate data val_data mask dn vn).res ∧
    (Validation.validate ((Validation.validate data val_data mask dn vn).dataOut)
        val_data mask dn vn).valid = (Validation.validate data val_data mask dn vn).valid ∧
    (Validation.validate ((Validation.validate data val_data mask dn vn).dataOut)
        val_data mask dn vn).metrics = (Validation.validate data val_data mask dn vn).metrics ∧
    Validation.successRate
      (Validation.validate ((Validation.validate data val_data mask dn vn).dataOut)
        val_data mask dn vn).TP
      (Validation.validate ((Validation.validate data val_data mask dn vn).dataOut)
        val_data mask dn vn).FN
      (Validation.validate ((Validation.validate data val_data mask dn vn).dataOut)
        val_data mask dn vn).FP =
    Validation.successRate (Validation.validate data val_data mask dn vn).TP
      (Validation.validate data val_data mask dn vn).FN
      (Validation.validate data val_data mask dn vn).FP := by
  have h : Validation.validate ((Validation.validate data val_data mask dn vn).dataOut)
      val_data mask dn vn = Validation.validate data val_data mask dn vn := by
    rw [Validation.validate_dataOut]
    exact Validation.validate_idem data val_data mask dn vn
  rw [h]
  exact ⟨rfl, rfl, rfl, rfl⟩

/-- Claim C1 counterexample: with configured sentinels data_nodata =
val_nodata = 7 (values restricted to {0,1,7} as the claim allows), a cell
holding data = 7 is coded 255 yet counted as valid by the hardcoded-255
validity mask, so the population guarantee fails for non-default
sentinels. -/
theorem valid_count_fails_for_custom_sentinels :
    ¬ (((Finset.univ.filter fun i : Fin 1 =>
          (Validation.validate (fun _ => (7 : ℤ)) (fun _ => 0) none 7 7).valid i = true ∧
            ((Validation.validate (fun _ => (7 : ℤ)) (fun _ => 0) none 7 7).res i = 0 ∨
             (Validation.validate (fun _ => (7 : ℤ)) (fun _ => 0) none 7 7).res i = 1 ∨
             (Validation.validate (fun _ => (7 : ℤ)) (fun _ => 0) none 7 7).res i = 2 ∨
             (Validation.validate (fun _ => (7 : ℤ)) (fun _ => 0) none 7 7).res i = 3)).card =
        (Finset.univ.filter fun i : Fin 1 =>
          (Validation.validate (fun _ => (7 : ℤ)) (fun _ => 0) none 7 7).valid i = true).card) ∧
      ∀ i : Fin 1,
        (Validation.validate (fun _ => (7 : ℤ)) (fun _ => 0) none 7 7).valid i = false →
          (Validation.validate (fun _ => (7 : ℤ)) (fun _ => 0) none 7 7).res i = 255) := by
  decide

/-- Claim C1 amended: with the default sentinels data_nodata = val_nodata =
255 and values in {0,1,255}, for any optional mask the cells coded in
{0,1,2,3} among the valid cells are exactly the valid cells, and every
invalid cell is coded 255. -/
theorem valid_count_default_sentinels {n : ℕ} (data val_data : Fin n → ℤ)
    (mask : Option (Fin n → ℤ))
    (hd : ∀ i, data i = 0 ∨ data i = 1 ∨ data i = 255)
    (hv : ∀ i, val_data i = 0 ∨ val_data i = 1 ∨ val_data i = 255) :
    ((Finset.univ.filter fun i =>
        (Validation.validate data val_data mask 255 255).valid i = true ∧
          ((Validation.validate data val_data mask 255 255).res i = 0 ∨
           (Validation.validate data val_data mask 255 255).res i = 1 ∨
           (Validation.validate data val_data mask 255 255).res i = 2 ∨
           (Validation.validate data val_data mask 255 255).res i = 3)).card =
      (Finset.univ.filter fun i =>
        (Validation.validate data val_data mask 255 255).valid i = true).card) ∧
    ∀ i, (Validation.validate data val_data mask 255 255).valid i = false →
      (Validation.validate data val_data mask 255 255).res i = 255 := by
  constructor
  · apply congrArg Finset.card
    refine Finset.filter_congr fun i _ => ⟨fun h => h.1, fun h => ⟨h, ?_⟩⟩
    rw [Validation.validate_valid, Validation.validMask_eq_true_iff] at h
    obtain ⟨hval, hdata⟩ := h
    have hnm : ∀ m, mask = some m → m i ≠ 1 := by
      intro m hm hc
      subst hm
      simp only [Validation.dataAfterMask, if_pos hc] at hdata
      exact hdata rfl
    have hdne : data i ≠ 255 := by
      cases mask with
      | none => exact hdata
      | some m =>
        simp only [Validation.dataAfterMask, if_neg (hnm m rfl)] at hdata
        exact hdata
    have hd2 : data i = 0 ∨ data i = 1 := by
      rcases hd i with h1 | h1 | h1
      · exact Or.inl h1
      · exact Or.inr h1
      · exact absurd h1 hdne
    have hv2 : val_data i = 0 ∨ val_data i = 1 := by
      rcases hv i with h1 | h1 | h1
      · exact Or.inl h1
      · exact Or.inr h1
      · exact absurd h1 hval
    rw [Validation.validate_res,
      Validation.diffMap_raw data val_data mask 255 255 i hdne hval hnm]
    rcases hd2 with h1 | h1 <;> rcases hv2 with h2 | h2 <;> rw [h1, h2] <;> norm_num
  · intro i h
    have h2 : val_data i = 255 ∨ Validation.dataAfterMask data mask i = 255 := by
      by_contra hc
      push_neg at hc
      have ht := (Validation.validMask_eq_true_iff data val_data mask i).mpr ⟨hc.1, hc.2⟩
      rw [Validation.validate_valid, ht] at h
      exact absurd h (by simp)
    rw [Validation.validate_res]
    apply Validation.diffMap_eq_255
    rcases h2 with h2 | h2
    · exact Or.inr (Or.inl h2)
    · cases mask with
      | none => exact Or.inl h2
      | some m =>
        by_cases hmi : m i = 1
        · exact Or.inr (Or.inr ⟨m, rfl, hmi⟩)
        · left
          simpa [Validation.dataAfterMask, hmi] using h2

/-- Witness for the amended C1 on a concrete one-cell grid. -/
theorem valid_count_default_sentinels_witness :
    ((Finset.univ.filter fun i : Fin 1 =>
        (Validation.validate (fun _ => (0 : ℤ)) (fun _ => 1) none 255 255).valid i = true ∧
          ((Validation.validate (fun _ => (0 : ℤ)) (fun _ => 1) none 255 255).res i = 0 ∨
           (Validation.validate (fun _ => (0 : ℤ)) (fun _ => 1) none 255 255).res i = 1 ∨
           (Validation.validate (fun _ => (0 : ℤ)) (fun _ => 1) none 255 255).res i = 2 ∨
           (Validation.validate (fun _ => (0 : ℤ)) (fun _ => 1) none 255 255).res i = 3)).card =
      (Finset.univ.filter fun i : Fin 1 =>
        (Validation.validate (fun _ => (0 : ℤ)) (fun _ => 1) none 255 255).valid i = true).card) ∧
    ∀ i : Fin 1,
      (Validation.validate (fun _ => (0 : ℤ)) (fun _ => 1) none 255 255).valid i = false →
        (Validation.validate (fun _ => (0 : ℤ)) (fun _ => 1) none 255 255).res i = 255 :=
  valid_count_default_sentinels (fun _ => 0) (fun _ => 1) none
    (fun _ => Or.inl rfl) (fun _ => Or.inr (Or.inl rfl))

/-- Claim C2: on counts with nonzero denominators the metrics engine returns
exactly the spec formulas for A = Po, Kappa, UA, PA, CSI, F1, Ce, Oe and the
success rate SR = PA - (1 - exp(FP / ((TP+FN)/ln 0.5))). -/
theorem computeMetrics_formulas (tp tn fn fp : ℕ)
    (h1 : tp + tn + fp + fn ≠ 0) (h2 : tp + fp ≠ 0) (h3 : tp + fn ≠ 0)
    (h4 : tp + fp + fn ≠ 0) (h5 : 2 * tp + fn + fp ≠ 0)
    (h6 : (tp + fn) * (tp + fp) + (fp + tn) * (fn + tn) ≠ (tp + tn + fp + fn) ^ 2) :
    (Validation.computeMetrics tp tn fn fp).A =
      some (((tp : ℚ) + tn) / ((tp : ℚ) + tn + fp + fn)) ∧
    (Validation.computeMetrics tp tn fn fp).K =
      some (((((tp : ℚ) + tn) / ((tp : ℚ) + tn + fp + fn)) -
          ((((tp : ℚ) + fn) * ((tp : ℚ) + fp) + ((fp : ℚ) + tn) * ((fn : ℚ) + tn)) /
            ((tp : ℚ) + tn + fp + fn) ^ 2)) /
        (1 - ((((tp : ℚ) + fn) * ((tp : ℚ) + fp) + ((fp : ℚ) + tn) * ((fn : ℚ) + tn)) /
            ((tp : ℚ) + tn + fp + fn) ^ 2))) ∧
    (Validation.computeMetrics tp tn fn fp).UA = some ((tp : ℚ) / ((tp : ℚ) + fp)) ∧
    (Validation.computeMetrics tp tn fn fp).PA = some ((tp : ℚ) / ((tp : ℚ) + fn)) ∧
    (Validation.computeMetrics tp tn fn fp).CSI =
      some ((tp : ℚ) / ((tp : ℚ) + fp + fn)) ∧
    (Validation.computeMetrics tp tn fn fp).F1 =
      some ((2 * (tp : ℚ)) / (2 * (tp : ℚ) + fn + fp)) ∧
    (Validation.computeMetrics tp tn fn fp).Ce = some ((fp : ℚ) / ((fp : ℚ) + tp)) ∧
    (Validation.computeMetrics tp tn fn fp).Oe = some ((fn : ℚ) / ((fn : ℚ) + tp)) ∧
    Validation.successRate tp fn fp =
      some ((tp : ℝ) / ((tp : ℝ) + fn) -
        (1 - Real.exp ((fp : ℝ) / (((tp : ℝ) + (fn : ℝ)) / Real.log 0.5)))) := by
  have q1 : ((tp : ℚ) + tn + fp + fn) ≠ 0 := by exact_mod_cast h1
  have q2 : ((tp : ℚ) + fp) ≠ 0 := by exact_mod_cast h2
  have q3 : ((tp : ℚ) + fn) ≠ 0 := by exact_mod_cast h3
  have q4 : ((tp : ℚ) + fp + fn) ≠ 0 := by exact_mod_cast h4
  have q5 : (2 * (tp : ℚ) + fn + fp) ≠ 0 := by exact_mod_cast h5
  have q2s : ((fp : ℚ) + tp) ≠ 0 := by
    exact_mod_cast (by omega : fp + tp ≠ 0)
  have q3s : ((fn : ℚ) + tp) ≠ 0 := by
    exact_mod_cast (by omega : fn + tp ≠ 0)
  have q1sq : (((tp : ℚ) + tn + fp + fn) ^ 2) ≠ 0 := pow_ne_zero 2 q1
  have q6 : ((tp : ℚ) + fn) * ((tp : ℚ) + fp) + ((fp : ℚ) + tn) * ((fn : ℚ) + tn) ≠
      ((tp : ℚ) + tn + fp + fn) ^ 2 := by exact_mod_cast h6
  have qpe : (((tp : ℚ) + fn) * ((tp : ℚ) + fp) + ((fp : ℚ) + tn) * ((fn : ℚ) + tn)) /
      ((tp : ℚ) + tn + fp + fn) ^ 2 ≠ 1 := by
    rw [Ne, div_eq_one_iff_eq q1sq]
    exact q6
  have r3 : ((tp : ℝ) + (fn : ℝ)) ≠ 0 := by exact_mod_cast h3
  have rlog : Real.log 0.5 ≠ 0 := by
    intro hc
    rcases Real.log_eq_zero.mp hc with hc | hc | hc <;> norm_num at hc
  have rden : ((tp : ℝ) + (fn : ℝ)) / Real.log 0.5 ≠ 0 := div_ne_zero r3 rlog
  refine ⟨?_, ?_, ?_, ?_, ?_, ?_, ?_, ?_, ?_⟩ <;>
    (simp only [Validation.computeMetrics, Validation.divOpt, Validation.successRate,
      Validation.penalization, Validation.divOptR, if_neg q1, if_neg q2, if_neg q3,
      if_neg q4, if_neg q5, if_neg q2s, if_neg q3s, if_neg q1sq, if_neg r3,
      if_neg rden, if_neg qpe]
     try rfl)

/-- Witness for C2 at TP = TN = FN = FP = 1. -/
theorem computeMetrics_formulas_witness :
    (Validation.computeMetrics 1 1 1 1).A =
      some ((((1 : ℕ) : ℚ) + ((1 : ℕ) : ℚ)) /
        (((1 : ℕ) : ℚ) + ((1 : ℕ) : ℚ) + ((1 : ℕ) : ℚ) + ((1 : ℕ) : ℚ))) ∧
    (Validation.computeMetrics 1 1 1 1).UA =
      some (((1 : ℕ) : ℚ) / (((1 : ℕ) : ℚ) + ((1 : ℕ) : ℚ))) :=
  ⟨(computeMetrics_formulas 1 1 1 1 (by decide) (by decide) (by decide) (by decide)
      (by decide) (by decide)).1,
   (computeMetrics_formulas 1 1 1 1 (by decide) (by decide) (by decide) (by decide)
      (by decide) (by decide)).2.2.1⟩

/-- Claim C9: Commission Error is one minus User Accuracy and Omission Error
is one minus Producer Accuracy whenever the shared denominators are nonzero,
and Accuracy is exactly the observed agreement Po. -/
theorem error_complement_identities (tp tn fn fp : ℕ) :
    (tp + fp ≠ 0 → ∃ u : ℚ, (Validation.computeMetrics tp tn fn fp).UA = some u ∧
      (Validation.computeMetrics tp tn fn fp).Ce = some (1 - u)) ∧
    (tp + fn ≠ 0 → ∃ p : ℚ, (Validation.computeMetrics tp tn fn fp).PA = some p ∧
      (Validation.computeMetrics tp tn fn fp).Oe = some (1 - p)) ∧
    (Validation.computeMetrics tp tn fn fp).A =
      Validation.divOpt ((tp : ℚ) + (tn : ℚ)) ((tp : ℚ) + tn + fp + fn) := by
  refine ⟨?_, ?_, rfl⟩
  · intro h2
    have q2 : ((tp : ℚ) + fp) ≠ 0 := by exact_mod_cast h2
    have q2s : ((fp : ℚ) + tp) ≠ 0 := by
      exact_mod_cast (by omega : fp + tp ≠ 0)
    have key : (fp : ℚ) / ((fp : ℚ) + tp) = 1 - (tp : ℚ) / ((tp : ℚ) + fp) := by
      rw [eq_sub_iff_add_eq, div_add_div _ _ q2s q2,
        div_eq_one_iff_eq (mul_ne_zero q2s q2)]
      ring
    refine ⟨(tp : ℚ) / ((tp : ℚ) + fp), ?_, ?_⟩
    · simp only [Validation.computeMetrics, Validation.divOpt, if_neg q2]
    · simp only [Validation.computeMetrics, Validation.divOpt, if_neg q2s]
      rw [key]
  · intro h3
    have q3 : ((tp : ℚ) + fn) ≠ 0 := by exact_mod_cast h3
    have q3s : ((fn : ℚ) + tp) ≠ 0 := by
      exact_mod_cast (by omega : fn + tp ≠ 0)
    have key : (fn : ℚ) / ((fn : ℚ) + tp) = 1 - (tp : ℚ) / ((tp : ℚ) + fn) := by
      rw [eq_sub_iff_add_eq, div_add_div _ _ q3s q3,
        div_eq_one_iff_eq (mul_ne_zero q3s q3)]
      ring
    refine ⟨(tp : ℚ) / ((tp : ℚ) + fn), ?_, ?_⟩
    · simp only [Validation.computeMetrics, Validation.divOpt, if_neg q3]
    · simp only [Validation.computeMetrics, Validation.divOpt, if_neg q3s]
      rw [key]

/-- Claim C4: when the reference equals val_nodata everywhere, the difference
map is 255 everywhere, all four confusion counts are zero and every metric
(the eight ratios, Kappa and the success rate) is the undefined marker, the
computation being total; and in general each metric is undefined exactly when
its own denominator is zero, independently of the other metrics. -/
theorem all_nodata_reference_degenerate {n : ℕ} (data val_data : Fin n → ℤ)
    (mask : Option (Fin n → ℤ)) (dn vn : ℤ) (h : ∀ i, val_data i = vn) :
    (∀ i, (Validation.validate data val_data mask dn vn).res i = 255) ∧
    (Validation.validate data val_data mask dn vn).TP = 0 ∧
    (Validation.validate data val_data mask dn vn).TN = 0 ∧
    (Validation.validate data val_data mask dn vn).FN = 0 ∧
    (Validation.validate data val_data mask dn vn).FP = 0 ∧
    (Validation.validate data val_data mask dn vn).metrics.UA = none ∧
    (Validation.validate data val_data mask dn vn).metrics.PA = none ∧
    (Validation.validate data val_data mask dn vn).metrics.Ce = none ∧
    (Validation.validate data val_data mask dn vn).metrics.Oe = none ∧
    (Validation.validate data val_data mask dn vn).metrics.CSI = none ∧
    (Validation.validate data val_data mask dn vn).metrics.F1 = none ∧
    (Validation.validate data val_data mask dn vn).metrics.K = none ∧
    (Validation.validate data val_data mask dn vn).metrics.A = none ∧
    Validation.successRate (Validation.validate data val_data mask dn vn).TP
      (Validation.validate data val_data mask dn vn).FN
      (Validation.validate data val_data mask dn vn).FP = none ∧
    ∀ tp tn fn fp : ℕ,
      ((Validation.computeMetrics tp tn fn fp).UA = none ↔ tp + fp = 0) ∧
      ((Validation.computeMetrics tp tn fn fp).PA = none ↔ tp + fn = 0) ∧
      ((Validation.computeMetrics tp tn fn fp).Ce = none ↔ fp + tp = 0) ∧
      ((Validation.computeMetrics tp tn fn fp).Oe = none ↔ fn + tp = 0) ∧
      ((Validation.computeMetrics tp tn fn fp).CSI = none ↔ tp + fp + fn = 0) ∧
      ((Validation.computeMetrics tp tn fn fp).F1 = none ↔ 2 * tp + fn + fp = 0) ∧
      ((Validation.computeMetrics tp tn fn fp).A = none ↔ tp + tn + fp + fn = 0) ∧
      ((Validation.computeMetrics tp tn fn fp).K = none ↔
        (tp + tn + fp + fn = 0 ∨
          ((tp : ℚ) + fn) * ((tp : ℚ) + fp) + ((fp : ℚ) + tn) * ((fn : ℚ) + tn) =
            ((tp : ℚ) + tn + fp + fn) ^ 2)) ∧
      (Validation.successRate tp fn fp = none ↔ tp + fn = 0) := by
  have h255 : ∀ i, (Validation.validate data val_data mask dn vn).res i = 255 := by
    intro i
    rw [Validation.validate_res]
    exact Validation.diffMap_eq_255 data val_data mask dn vn i (Or.inr (Or.inl (h i)))
  have hcount : ∀ c : ℤ, c ≠ 255 →
      Validation.countCode ((Validation.validate data val_data mask dn vn).res) c = 0 := by
    intro c hc
    exact Validation.countCode_eq_zero _ c fun i => by rw [h255 i]; omega
  have hTP : (Validation.validate data val_data mask dn vn).TP = 0 := by
    rw [Validation.validate_TP]; exact hcount 2 (by omega)
  have hTN : (Validation.validate data val_data mask dn vn).TN = 0 := by
    rw [Validation.validate_TN]; exact hcount 1 (by omega)
  have hFN : (Validation.validate data val_data mask dn vn).FN = 0 := by
    rw [Validation.validate_FN]; exact hcount 0 (by omega)
  have hFP : (Validation.validate data val_data mask dn vn).FP = 0 := by
    rw [Validation.validate_FP]; exact hcount 3 (by omega)
  have hmet : (Validation.validate data val_data mask dn vn).metrics =
      Validation.computeMetrics 0 0 0 0 := by
    rw [Validation.validate_metrics, hTP, hTN, hFN, hFP]
  refine ⟨h255, hTP, hTN, hFN, hFP, ?_, ?_, ?_, ?_, ?_, ?_, ?_, ?_, ?_, ?_⟩
  · rw [hmet]; exact (Validation.computeMetrics_UA_none_iff 0 0 0 0).mpr rfl
  · rw [hmet]; exact (Validation.computeMetrics_PA_none_iff 0 0 0 0).mpr rfl
  · rw [hmet]; exact (Validation.computeMetrics_Ce_none_iff 0 0 0 0).mpr rfl
  · rw [hmet]; exact (Validation.computeMetrics_Oe_none_iff 0 0 0 0).mpr rfl
  · rw [hmet]; exact (Validation.computeMetrics_CSI_none_iff 0 0 0 0).mpr rfl
  · rw [hmet]; exact (Validation.computeMetrics_F1_none_iff 0 0 0 0).mpr rfl
  · rw [hmet]; exact (Validation.computeMetrics_K_none_iff 0 0 0 0).mpr (Or.inl rfl)
  · rw [hmet]; exact (Validation.computeMetrics_A_none_iff 0 0 0 0).mpr rfl
  · rw [hTP, hFN, hFP]; exact (Validation.successRate_eq_none_iff 0 0 0).mpr rfl
  · intro tp tn fn fp
    exact ⟨Validation.computeMetrics_UA_none_iff tp tn fn fp,
      Validation.computeMetrics_PA_none_iff tp tn fn fp,
      Validation.computeMetrics_Ce_none_iff tp tn fn fp,
      Validation.computeMetrics_Oe_none_iff tp tn fn fp,
      Validation.computeMetrics_CSI_none_iff tp tn fn fp,
      Validation.computeMetrics_F1_none_iff tp tn fn fp,
      Validation.computeMetrics_A_none_iff tp tn fn fp,
      Validation.computeMetrics_K_none_iff tp tn fn fp,
      Validation.successRate_eq_none_iff tp fn fp⟩

/-- Witness for C4 on a one-cell grid whose reference cell carries the
configured val_nodata value 5. -/
theorem all_nodata_reference_degenerate_witness :
    (∀ i : Fin 1, (fun _ => (5 : ℤ)) i = 5) ∧
    ((∀ i, (Validation.validate (fun _ : Fin 1 => (0 : ℤ)) (fun _ => 5) none 255 5).res i =
        255) ∧
      (Validation.validate (fun _ : Fin 1 => (0 : ℤ)) (fun _ => 5) none 255 5).TP = 0 ∧
      (Validation.validate (fun _ : Fin 1 => (0 : ℤ)) (fun _ => 5) none 255 5).TN = 0 ∧
      (Validation.validate (fun _ : Fin 1 => (0 : ℤ)) (fun _ => 5) none 255 5).FN = 0 ∧
      (Validation.validate (fun _ : Fin 1 => (0 : ℤ)) (fun _ => 5) none 255 5).FP = 0 ∧
      (Validation.validate (fun _ : Fin 1 => (0 : ℤ)) (fun _ => 5) none 255 5).metrics.UA =
        none ∧
      (Validation.validate (fun _ : Fin 1 => (0 : ℤ)) (fun _ => 5) none 255 5).metrics.PA =
        none ∧
      (Validation.validate (fun _ : Fin 1 => (0 : ℤ)) (fun _ => 5) none 255 5).metrics.Ce =
        none ∧
      (Validation.validate (fun _ : Fin 1 => (0 : ℤ)) (fun _ => 5) none 255 5).metrics.Oe =
        none ∧
      (Validation.validate (fun _ : Fin 1 => (0 : ℤ)) (fun _ => 5) none 255 5).metrics.CSI =
        none ∧
      (Validation.validate (fun _ : Fin 1 => (0 : ℤ)) (fun _ => 5) none 255 5).metrics.F1 =
        none ∧
      (Validation.validate (fun _ : Fin 1 => (0 : ℤ)) (fun _ => 5) none 255 5).metrics.K =
        none ∧
      (Validation.validate (fun _ : Fin 1 => (0 : ℤ)) (fun _ => 5) none 255 5).metrics.A =
        none ∧
      Validation.successRate
        (Validation.validate (fun _ : Fin 1 => (0 : ℤ)) (fun _ => 5) none 255 5).TP
        (Validation.validate (fun _ : Fin 1 => (0 : ℤ)) (fun _ => 5) none 255 5).FN
        (Validation.validate (fun _ : Fin 1 => (0 : ℤ)) (fun _ => 5) none 255 5).FP = none ∧
      ∀ tp tn fn fp : ℕ,
        ((Validation.computeMetrics tp tn fn fp).UA = none ↔ tp + fp = 0) ∧
        ((Validation.computeMetrics tp tn fn fp).PA = none ↔ tp + fn = 0) ∧
        ((Validation.computeMetrics tp tn fn fp).Ce = none ↔ fp + tp = 0) ∧
        ((Validation.computeMetrics tp tn fn fp).Oe = none ↔ fn + tp = 0) ∧
        ((Validation.computeMetrics tp tn fn fp).CSI = none ↔ tp + fp + fn = 0) ∧
        ((Validation.computeMetrics tp tn fn fp).F1 = none ↔ 2 * tp + fn + fp = 0) ∧
        ((Validation.computeMetrics tp tn fn fp).A = none ↔ tp + tn + fp + fn = 0) ∧
        ((Validation.computeMetrics tp tn fn fp).K = none ↔
          (tp + tn + fp + fn = 0 ∨
            ((tp : ℚ) + fn) * ((tp : ℚ) + fp) + ((fp : ℚ) + tn) * ((fn : ℚ) + tn) =
              ((tp : ℚ) + tn + fp + fn) ^ 2)) ∧
        (Validation.successRate tp fn fp = none ↔ tp + fn = 0)) :=
  ⟨by decide,
   all_nodata_reference_degenerate (fun _ => 0) (fun _ => 5) none 255 5 (by decide)⟩

/-- Witness for C9 at TP = 1, TN = 0, FN = 1, FP = 1. -/
theorem error_complement_identities_witness :
    (∃ u : ℚ, (Validation.computeMetrics 1 0 1 1).UA = some u ∧
      (Validation.computeMetrics 1 0 1 1).Ce = some (1 - u)) ∧
    ∃ p : ℚ, (Validation.computeMetrics 1 0 1 1).PA = some p ∧
      (Validation.computeMetrics 1 0 1 1).Oe = some (1 - p) :=
  ⟨(error_complement_identities 1 0 1 1).1 (by decide),
   (error_complement_identities 1 0 1 1).2.1 (by decide)⟩

/-- Claim C8 counterexample: perfect agreement on a one-cell grid whose only
value is 0 (binary, no nodata, no mask) leaves TP = FP = 0, so UA is the
undefined marker, not 1 as the claim asserts. -/
theorem perfect_agreement_uniform_zero_UA_undefined :
    (Validation.validate (fun _ : Fin 1 => (0 : ℤ)) (fun _ => 0) none 255 255).metrics.UA ≠
      some 1 := by
  have hTP : (Validation.validate (fun _ : Fin 1 => (0 : ℤ)) (fun _ => 0) none
      255 255).TP = 0 := by decide
  have hTN : (Validation.validate (fun _ : Fin 1 => (0 : ℤ)) (fun _ => 0) none
      255 255).TN = 1 := by decide
  have hFN : (Validation.validate (fun _ : Fin 1 => (0 : ℤ)) (fun _ => 0) none
      255 255).FN = 0 := by decide
  have hFP : (Validation.validate (fun _ : Fin 1 => (0 : ℤ)) (fun _ => 0) none
      255 255).FP = 0 := by decide
  rw [Validation.validate_metrics, hTP, hTN, hFN, hFP, Validation.computeMetrics_UA]
  simp [Validation.divOpt]

/-- Claim C8 amended: for binary inputs with no nodata cells and no mask where
data equals reference everywhere and the reference has at least one positive
cell, FP = FN = 0 and UA = PA = CSI = F1 = A = 1; Kappa is 1 when the
reference also has a negative cell, and is the undefined marker when the
reference is uniformly positive (the Pe = 1 edge case). -/
theorem perfect_agreement_metrics {n : ℕ} (data val_data : Fin n → ℤ) (dn vn : ℤ)
    (heq : ∀ i, data i = val_data i) (hbin : ∀ i, val_data i = 0 ∨ val_data i = 1)
    (hdn0 : dn ≠ 0) (hdn1 : dn ≠ 1) (hvn0 : vn ≠ 0) (hvn1 : vn ≠ 1)
    (hpos : ∃ i, val_data i = 1) :
    (Validation.validate data val_data none dn vn).FP = 0 ∧
    (Validation.validate data val_data none dn vn).FN = 0 ∧
    (Validation.validate data val_data none dn vn).metrics.UA = some 1 ∧
    (Validation.validate data val_data none dn vn).metrics.PA = some 1 ∧
    (Validation.validate data val_data none dn vn).metrics.CSI = some 1 ∧
    (Validation.validate data val_data none dn vn).metrics.F1 = some 1 ∧
    (Validation.validate data val_data none dn vn).metrics.A = some 1 ∧
    ((∃ j, val_data j = 0) →
      (Validation.validate data val_data none dn vn).metrics.K = some 1) ∧
    ((∀ j, val_data j = 1) →
      (Validation.validate data val_data none dn vn).metrics.K = none) := by
  have hres : ∀ i, (Validation.validate data val_data none dn vn).res i =
      1 + val_data i := by
    intro i
    have hdne : data i ≠ dn := by
      rw [heq i]; rcases hbin i with h | h <;> rw [h] <;> omega
    have hvne : val_data i ≠ vn := by
      rcases hbin i with h | h <;> rw [h] <;> omega
    rw [Validation.validate_res,
      Validation.diffMap_raw data val_data none dn vn i hdne hvne
        (fun m hm => Option.noConfusion hm),
      heq i]
    ring
  have hFP : (Validation.validate data val_data none dn vn).FP = 0 := by
    rw [Validation.validate_FP]
    apply Validation.countCode_eq_zero
    intro i
    rw [hres i]
    rcases hbin i with h | h <;> rw [h] <;> omega
  have hFN : (Validation.validate data val_data none dn vn).FN = 0 := by
    rw [Validation.validate_FN]
    apply Validation.countCode_eq_zero
    intro i
    rw [hres i]
    rcases hbin i with h | h <;> rw [h] <;> omega
  have hTPpos : (Validation.validate data val_data none dn vn).TP ≠ 0 := by
    obtain ⟨j, hj⟩ := hpos
    rw [Validation.validate_TP]
    exact Validation.countCode_ne_zero _ 2 j (by rw [hres j, hj]; norm_num)
  have hmet : (Validation.validate data val_data none dn vn).metrics =
      Validation.computeMetrics ((Validation.validate data val_data none dn vn).TP)
        ((Validation.validate data val_data none dn vn).TN) 0 0 := by
    rw [Validation.validate_metrics, hFN, hFP]
  obtain ⟨hUA, hPA, hCSI, hF1, hA, hK1, hK0⟩ :=
    Validation.computeMetrics_perfect ((Validation.validate data val_data none dn vn).TP)
      ((Validation.validate data val_data none dn vn).TN) hTPpos
  refine ⟨hFP, hFN, ?_, ?_, ?_, ?_, ?_, ?_, ?_⟩
  · rw [hmet]; exact hUA
  · rw [hmet]; exact hPA
  · rw [hmet]; exact hCSI
  · rw [hmet]; exact hF1
  · rw [hmet]; exact hA
  · rintro ⟨j, hj⟩
    have hTNpos : (Validation.validate data val_data none dn vn).TN ≠ 0 := by
      rw [Validation.validate_TN]
      exact Validation.countCode_ne_zero _ 1 j (by rw [hres j, hj]; norm_num)
    rw [hmet]
    exact hK1 hTNpos
  · intro hall
    have hTN0 : (Validation.validate data val_data none dn vn).TN = 0 := by
      rw [Validation.validate_TN]
      apply Validation.countCode_eq_zero
      intro i
      rw [hres i, hall i]
      omega
    rw [hmet]
    exact hK0 hTN0

/-- Witness for the amended C8 on a two-cell grid with one positive and one
negative cell in perfect agreement. -/
theorem perfect_agreement_metrics_witness :
    (Validation.validate (fun i : Fin 2 => if i = 0 then (1 : ℤ) else 0)
      (fun i => if i = 0 then 1 else 0) none 255 255).FP = 0 ∧
    (Validation.validate (fun i : Fin 2 => if i = 0 then (1 : ℤ) else 0)
      (fun i => if i = 0 then 1 else 0) none 255 255).FN = 0 ∧
    (Validation.validate (fun i : Fin 2 => if i = 0 then (1 : ℤ) else 0)
      (fun i => if i = 0 then 1 else 0) none 255 255).metrics.UA = some 1 ∧
    (Validation.validate (fun i : Fin 2 => if i = 0 then (1 : ℤ) else 0)
      (fun i => if i = 0 then 1 else 0) none 255 255).metrics.PA = some 1 ∧
    (Validation.validate (fun i : Fin 2 => if i = 0 then (1 : ℤ) else 0)
      (fun i => if i = 0 then 1 else 0) none 255 255).metrics.CSI = some 1 ∧
    (Validation.validate (fun i : Fin 2 => if i = 0 then (1 : ℤ) else 0)
      (fun i => if i = 0 then 1 else 0) none 255 255).metrics.F1 = some 1 ∧
    (Validation.validate (fun i : Fin 2 => if i = 0 then (1 : ℤ) else 0)
      (fun i => if i = 0 then 1 else 0) none 255 255).metrics.A = some 1 ∧
    ((∃ j : Fin 2, (fun i : Fin 2 => if i = 0 then (1 : ℤ) else 0) j = 0) →
      (Validation.validate (fun i : Fin 2 => if i = 0 then (1 : ℤ) else 0)
        (fun i => if i = 0 then 1 else 0) none 255 255).metrics.K = some 1) ∧
    ((∀ j : Fin 2, (fun i : Fin 2 => if i = 0 then (1 : ℤ) else 0) j = 1) →
      (Validation.validate (fun i : Fin 2 => if i = 0 then (1 : ℤ) else 0)
        (fun i => if i = 0 then 1 else 0) none 255 255).metrics.K = none) :=
  perfect_agreement_metrics (fun i => if i = 0 then 1 else 0)
    (fun i => if i = 0 then 1 else 0) 255 255 (fun _ => rfl) (by decide)
    (by decide) (by decide) (by decide) (by decide) (by decide)
